import Mathlib

/-!
Shallow embedding of the security module of `n01d-machine`
(`src/releases/n01d-cross-platform/src-tauri/src/security.rs`), together
with theorems checking the natural-language specification against it.

Modelling conventions:
* Rust `String` / `&str` become Lean `String`; `u16` / `u32` become `Nat`
  (the code only formats these numbers, and `Display` for the unsigned
  integer types agrees with `Nat.repr` on their value range).
* `Option<T>` becomes `Option T`; `Vec<T>` becomes `List T`.
* `HashMap<String, SecurityProfile>` becomes an association list
  `List (String × SecurityProfile)`; the claims only ever need to observe
  whether the catalog is empty.
* `PathBuf` becomes `String` (paths are never inspected by the compilers).
* The file-system and JSON effects in `SecurityManager::new` are modelled
  as explicit parameters (see `SecurityManager.new`).
All other code is translated directly, keeping the source's names.
-/

/-- `IsolationMode` from security.rs (lines 33-49). -/
inductive IsolationMode where
  | None
  | Full
  | HostOnly
  | Internal
  | Filtered
  | TorOnly
  | VpnOnly
deriving DecidableEq, Repr

/-- `NetworkIsolation` from security.rs (lines 24-31). -/
structure NetworkIsolation where
  mode : IsolationMode
  allow_host_access : Bool
  allow_internet : Bool
  isolated_network_id : Option String
  mac_address : Option String
deriving DecidableEq, Repr

/-- `VpnProvider` from security.rs (lines 64-70). -/
inductive VpnProvider where
  | OpenVPN
  | WireGuard
  | Custom
deriving DecidableEq, Repr

/-- `VpnProtocol` from security.rs (lines 72-77). -/
inductive VpnProtocol where
  | UDP
  | TCP
deriving DecidableEq, Repr

/-- `VpnConfig` from security.rs (lines 52-62). -/
structure VpnConfig where
  provider : VpnProvider
  config_file : Option String
  server : Option String
  port : Nat
  protocol : VpnProtocol
  username : Option String
  kill_switch : Bool
  dns_leak_protection : Bool
deriving DecidableEq, Repr

/-- `ProxyType` from security.rs (lines 97-104). -/
inductive ProxyType where
  | Socks5
  | Socks4
  | Http
  | Https
deriving DecidableEq, Repr

/-- `ProxyChainEntry` from security.rs (lines 90-95). -/
structure ProxyChainEntry where
  proxy_type : ProxyType
  host : String
  port : Nat
deriving DecidableEq, Repr

/-- `ProxyConfig` from security.rs (lines 80-88). -/
structure ProxyConfig where
  proxy_type : ProxyType
  host : String
  port : Nat
  username : Option String
  password : Option String
  chain : List ProxyChainEntry
deriving DecidableEq, Repr

/-- `FirewallAction` from security.rs (lines 119-125). -/
inductive FirewallAction where
  | Allow
  | Deny
  | Drop
  | Log
deriving DecidableEq, Repr

/-- `TrafficDirection` from security.rs (lines 127-132). -/
inductive TrafficDirection where
  | Inbound
  | Outbound
  | Both
deriving DecidableEq, Repr

/-- `FirewallRule` from security.rs (lines 106-117). -/
structure FirewallRule where
  action : FirewallAction
  direction : TrafficDirection
  protocol : Option String
  source : Option String
  destination : Option String
  port : Option Nat
  port_range : Option (Nat × Nat)
  description : String
deriving DecidableEq, Repr

/-- `VirtualDeviceType` from security.rs (lines 144-152). -/
inductive VirtualDeviceType where
  | NetworkAdapter
  | UsbController
  | StorageController
  | AudioDevice
  | SerialPort
  | Tpm
deriving DecidableEq, Repr

/-- `VirtualDevice` from security.rs (lines 134-142). -/
structure VirtualDevice where
  device_type : VirtualDeviceType
  name : String
  enabled : Bool
  passthrough : Bool
  isolated : Bool
deriving DecidableEq, Repr

/-- `SecurityProfile` from security.rs (lines 10-21). -/
structure SecurityProfile where
  name : String
  sandbox_enabled : Bool
  network_isolation : NetworkIsolation
  tor_enabled : Bool
  vpn_config : Option VpnConfig
  proxy_config : Option ProxyConfig
  firewall_rules : List FirewallRule
  virtual_devices : List VirtualDevice
deriving DecidableEq, Repr

/-- `TorConfig` from security.rs (lines 154-167). -/
structure TorConfig where
  socks_port : Nat
  control_port : Nat
  dns_port : Nat
  transparent_proxy : Bool
  bridge_enabled : Bool
  bridges : List String
  exit_nodes : Option (List String)
  exclude_exit_nodes : Option (List String)
  strict_nodes : Bool
  new_circuit_period : Nat
deriving DecidableEq, Repr

/-- `impl Default for TorConfig` from security.rs (lines 169-184). -/
def TorConfig.default : TorConfig where
  socks_port := 9050
  control_port := 9051
  dns_port := 5353
  transparent_proxy := true
  bridge_enabled := false
  bridges := []
  exit_nodes := none
  exclude_exit_nodes := none
  strict_nodes := false
  new_circuit_period := 30

/-- `SecurityManager` from security.rs (lines 186-191); the `HashMap` of
profiles is modelled as an association list. -/
structure SecurityManager where
  config_dir : String
  profiles : List (String × SecurityProfile)
  tor_config : TorConfig
deriving DecidableEq, Repr

namespace SecurityManager

/-- `SecurityManager::new` from security.rs (lines 194-208). The file-system
and JSON effects are made explicit parameters: `fileExists` models
`profiles_path.exists()`, `readResult` models the outcome of
`fs::read_to_string` (`none` = read error, for which the source substitutes
`String::default()`, the empty string), and `parse` models
`serde_json::from_str` (`none` = parse failure, for which the source
substitutes the default, empty map). -/
def new (config_dir : String) (fileExists : Bool) (readResult : Option String)
    (parse : String → Option (List (String × SecurityProfile))) : SecurityManager :=
  let profiles :=
    if fileExists then
      let content := readResult.getD ""
      (parse content).getD []
    else []
  { config_dir := config_dir, profiles := profiles, tor_config := TorConfig.default }

/-- `SecurityManager::default_firewall_rules` from security.rs (lines 376-409). -/
def default_firewall_rules : List FirewallRule :=
  [ { action := FirewallAction.Allow
      direction := TrafficDirection.Outbound
      protocol := some "tcp"
      source := none
      destination := none
      port := some 443
      port_range := none
      description := "Allow HTTPS" },
    { action := FirewallAction.Allow
      direction := TrafficDirection.Outbound
      protocol := some "tcp"
      source := none
      destination := none
      port := some 80
      port_range := none
      description := "Allow HTTP" },
    { action := FirewallAction.Allow
      direction := TrafficDirection.Outbound
      protocol := some "udp"
      source := none
      destination := none
      port := some 53
      port_range := none
      description := "Allow DNS" } ]

/-- `SecurityManager::default_virtual_devices` from security.rs (lines 411-428). -/
def default_virtual_devices : List VirtualDevice :=
  [ { device_type := VirtualDeviceType.NetworkAdapter
      name := "virtio-net"
      enabled := true
      passthrough := false
      isolated := false },
    { device_type := VirtualDeviceType.UsbController
      name := "usb-tablet"
      enabled := true
      passthrough := false
      isolated := true } ]

/-- `SecurityManager::get_preset_profiles` from security.rs (lines 235-374). -/
def get_preset_profiles : List (String × String × SecurityProfile) :=
  [ ( "paranoid",
      "Maximum security - Full isolation, Tor routing, no host access",
      { name := "paranoid"
        sandbox_enabled := true
        network_isolation :=
          { mode := IsolationMode.TorOnly
            allow_host_access := false
            allow_internet := true
            isolated_network_id := none
            mac_address := some "52:54:00:00:00:01" }
        tor_enabled := true
        vpn_config := none
        proxy_config := none
        firewall_rules :=
          [ { action := FirewallAction.Deny
              direction := TrafficDirection.Outbound
              protocol := some "icmp"
              source := none
              destination := none
              port := none
              port_range := none
              description := "Block ICMP to prevent fingerprinting" },
            { action := FirewallAction.Allow
              direction := TrafficDirection.Outbound
              protocol := some "tcp"
              source := none
              destination := some "127.0.0.1"
              port := some 9050
              port_range := none
              description := "Allow Tor SOCKS" } ]
        virtual_devices :=
          [ { device_type := VirtualDeviceType.NetworkAdapter
              name := "tor-net"
              enabled := true
              passthrough := false
              isolated := true } ] } ),
    ( "stealth",
      "VPN + Tor chain for maximum anonymity",
      { name := "stealth"
        sandbox_enabled := true
        network_isolation :=
          { mode := IsolationMode.VpnOnly
            allow_host_access := false
            allow_internet := true
            isolated_network_id := none
            mac_address := some "52:54:00:00:00:02" }
        tor_enabled := true
        vpn_config := some
          { provider := VpnProvider.WireGuard
            config_file := none
            server := none
            port := 51820
            protocol := VpnProtocol.UDP
            username := none
            kill_switch := true
            dns_leak_protection := true }
        proxy_config := none
        firewall_rules := default_firewall_rules
        virtual_devices := default_virtual_devices } ),
    ( "isolated",
      "Complete network isolation - no internet access",
      { name := "isolated"
        sandbox_enabled := true
        network_isolation :=
          { mode := IsolationMode.Full
            allow_host_access := false
            allow_internet := false
            isolated_network_id := some "isolated-net-1"
            mac_address := none }
        tor_enabled := false
        vpn_config := none
        proxy_config := none
        firewall_rules :=
          [ { action := FirewallAction.Deny
              direction := TrafficDirection.Both
              protocol := none
              source := none
              destination := none
              port := none
              port_range := none
              description := "Block all traffic" } ]
        virtual_devices := [] } ),
    ( "pentesting",
      "Isolated network with tools access",
      { name := "pentesting"
        sandbox_enabled := true
        network_isolation :=
          { mode := IsolationMode.Internal
            allow_host_access := true
            allow_internet := true
            isolated_network_id := some "pentest-net"
            mac_address := none }
        tor_enabled := false
        vpn_config := none
        proxy_config := some
          { proxy_type := ProxyType.Socks5
            host := "127.0.0.1"
            port := 1080
            username := none
            password := none
            chain := [] }
        firewall_rules := default_firewall_rules
        virtual_devices := default_virtual_devices } ) ]

end SecurityManager

namespace SecurityManager

/-- Rust's `str::starts_with`, expressed on the character lists underlying
Lean strings (the byte-level check of the source agrees with the
character-level check on valid UTF-8). -/
def startsWith (s p : String) : Bool := p.data.isPrefixOf s.data

/-- The MAC-patching loop inside `generate_qemu_security_args`
(security.rs lines 486-494): scan the argument list for the first token
starting with `"virtio-net-pci"`, append `,mac=<mac>` to it, and stop. -/
def patchMac (mac : String) : List String → List String
  | [] => []
  | a :: rest =>
    if startsWith a "virtio-net-pci" then (a ++ ",mac=" ++ mac) :: rest
    else a :: patchMac mac rest

/-- `SecurityManager::generate_qemu_security_args` from security.rs
(lines 431-497). -/
def generate_qemu_security_args (self : SecurityManager) (profile : SecurityProfile) :
    List String :=
  let args : List String :=
    (if profile.sandbox_enabled then ["-sandbox", "on"] else []) ++
    (match profile.network_isolation.mode with
      | IsolationMode.Full => ["-nic", "none"]
      | IsolationMode.HostOnly =>
          ["-netdev", "user,id=hostonly,restrict=on",
           "-device", "virtio-net-pci,netdev=hostonly"]
      | IsolationMode.Internal =>
          let net_id := profile.network_isolation.isolated_network_id.getD "internal"
          ["-netdev", "socket,id=" ++ net_id ++ ",mcast=230.0.0.1:1234",
           "-device", "virtio-net-pci,netdev=" ++ net_id]
      | IsolationMode.TorOnly =>
          ["-netdev",
           "user,id=tornet,hostfwd=tcp::2222-:22,guestfwd=tcp:10.0.2.100:9050-cmd:nc 127.0.0.1 "
             ++ toString self.tor_config.socks_port,
           "-device", "virtio-net-pci,netdev=tornet"]
      | IsolationMode.VpnOnly =>
          ["-netdev", "user,id=vpnnet,restrict=off",
           "-device", "virtio-net-pci,netdev=vpnnet"]
      | _ => [])
  match profile.network_isolation.mac_address with
  | some mac => patchMac mac args
  | none => args

/-- The fixed header block of `generate_torrc` (security.rs lines 502-512). -/
def torrcHeader (config : TorConfig) (vm_name : String) : String :=
  "# n01d Machine Tor Configuration for " ++ vm_name ++ "\nSocksPort "
    ++ toString config.socks_port ++ "\nControlPort " ++ toString config.control_port
    ++ "\nDNSPort " ++ toString config.dns_port
    ++ "\nAutomapHostsOnResolve 1\nAutomapHostsSuffixes .onion,.exit\nVirtualAddrNetworkIPv4 10.192.0.0/10\n"

/-- `SecurityManager::generate_torrc` from security.rs (lines 500-540);
each `push_str` becomes an append, the bridge loop becomes a fold. -/
def generate_torrc (self : SecurityManager) (vm_name : String) : String :=
  let config := self.tor_config
  let torrc := torrcHeader config vm_name
  let torrc := if config.transparent_proxy then torrc ++ "TransPort 9040\n" else torrc
  let torrc :=
    if config.bridge_enabled && !config.bridges.isEmpty then
      config.bridges.foldl (fun acc bridge => acc ++ ("Bridge " ++ bridge ++ "\n"))
        (torrc ++ "UseBridges 1\n")
    else torrc
  let torrc :=
    match config.exit_nodes with
    | some exit_nodes => torrc ++ ("ExitNodes " ++ String.intercalate "," exit_nodes ++ "\n")
    | none => torrc
  let torrc :=
    match config.exclude_exit_nodes with
    | some exclude => torrc ++ ("ExcludeExitNodes " ++ String.intercalate "," exclude ++ "\n")
    | none => torrc
  let torrc := if config.strict_nodes then torrc ++ "StrictNodes 1\n" else torrc
  torrc ++ ("NewCircuitPeriod " ++ toString config.new_circuit_period ++ "\n")

/-- `SecurityManager::generate_wireguard_config` from security.rs
(lines 543-559). -/
def generate_wireguard_config (vpn : VpnConfig) : String :=
  "[Interface]\nPrivateKey = <YOUR_PRIVATE_KEY>\nAddress = 10.0.0.2/24\nDNS = 1.1.1.1\n\n[Peer]\nPublicKey = <SERVER_PUBLIC_KEY>\nEndpoint = "
    ++ (vpn.server.getD "vpn.example.com") ++ ":" ++ toString vpn.port
    ++ "\nAllowedIPs = 0.0.0.0/0\nPersistentKeepalive = 25\n"

/-- The `action` mapping in `generate_iptables_rules` (security.rs
lines 570-575). -/
def actionStr : FirewallAction → String
  | FirewallAction.Allow => "ACCEPT"
  | FirewallAction.Deny => "REJECT"
  | FirewallAction.Drop => "DROP"
  | FirewallAction.Log => "LOG"

/-- The per-rule primary command built by `generate_iptables_rules`
(security.rs lines 577-606): direction qualifier (`Both` uses `-i`, the
outbound twin is added separately), then the optional protocol, source,
destination, port and port-range clauses, then action and the description
comment. -/
def ruleCmd (name vm_interface : String) (rule : FirewallRule) : String :=
  let action := actionStr rule.action
  let direction :=
    match rule.direction with
    | TrafficDirection.Inbound => "-i"
    | TrafficDirection.Outbound => "-o"
    | TrafficDirection.Both => "-i"
  let cmd := "iptables -A n01d-" ++ name ++ " " ++ direction ++ " " ++ vm_interface
  let cmd := match rule.protocol with
    | some proto => cmd ++ (" -p " ++ proto)
    | none => cmd
  let cmd := match rule.source with
    | some src => cmd ++ (" -s " ++ src)
    | none => cmd
  let cmd := match rule.destination with
    | some dst => cmd ++ (" -d " ++ dst)
    | none => cmd
  let cmd := match rule.port with
    | some port => cmd ++ (" --dport " ++ toString port)
    | none => cmd
  let cmd := match rule.port_range with
    | some se => cmd ++ (" --dport " ++ toString se.1 ++ ":" ++ toString se.2)
    | none => cmd
  cmd ++ (" -j " ++ action ++ " -m comment --comment \"" ++ rule.description ++ "\"")

/-- The outbound twin command emitted for a `Both`-direction rule
(security.rs lines 609-616): chain append, `-o` interface, the optional
protocol clause, and the action — nothing else. -/
def ruleCmdOut (name vm_interface : String) (rule : FirewallRule) : String :=
  let action := actionStr rule.action
  let cmd_out := "iptables -A n01d-" ++ name ++ " -o " ++ vm_interface
  let cmd_out := match rule.protocol with
    | some proto => cmd_out ++ (" -p " ++ proto)
    | none => cmd_out
  cmd_out ++ (" -j " ++ action)

/-- What one iteration of the rule loop in `generate_iptables_rules`
pushes: the primary command, then the outbound twin when the direction is
`Both` (security.rs lines 569-617). -/
def ruleCmds (name vm_interface : String) (rule : FirewallRule) : List String :=
  ruleCmd name vm_interface rule ::
    (if rule.direction = TrafficDirection.Both then [ruleCmdOut name vm_interface rule] else [])

/-- `SecurityManager::generate_iptables_rules` from security.rs
(lines 562-620). -/
def generate_iptables_rules (_self : SecurityManager) (profile : SecurityProfile)
    (vm_interface : String) : List String :=
  ("iptables -F n01d-" ++ profile.name) ::
  ("iptables -N n01d-" ++ profile.name ++ " 2>/dev/null || true") ::
  profile.firewall_rules.flatMap (ruleCmds profile.name vm_interface)

end SecurityManager

/-- The `Default` derived for `NetworkIsolation` (security.rs line 24):
`mode` defaults to `None` (the `#[default]` variant), booleans to `false`,
options to `None`. -/
def NetworkIsolation.default : NetworkIsolation where
  mode := IsolationMode.None
  allow_host_access := false
  allow_internet := false
  isolated_network_id := none
  mac_address := none

/-- Boolean test: does token `t` end with the text `mac=<mac>`? -/
def endsWithMac (mac t : String) : Bool := ("mac=" ++ mac).data.isSuffixOf t.data

namespace SecurityManager

/-- The profile value constructed by `SecurityManager::create_profile`
(security.rs lines 218-232); the map insertion and the save call are
store I/O and are not needed by any claim. -/
def create_profile_value (name : String) : SecurityProfile where
  name := name
  sandbox_enabled := true
  network_isolation := NetworkIsolation.default
  tor_enabled := false
  vpn_config := none
  proxy_config := none
  firewall_rules := default_firewall_rules
  virtual_devices := default_virtual_devices

/-- The conditional `TransPort` line of `generate_torrc`
(security.rs lines 514-516), as a chunk list. -/
def transChunk (config : TorConfig) : List String :=
  if config.transparent_proxy then ["TransPort 9040\n"] else []

/-- The conditional `UseBridges`/`Bridge` lines of `generate_torrc`
(security.rs lines 518-523), as a chunk list. -/
def bridgeChunks (config : TorConfig) : List String :=
  if config.bridge_enabled && !config.bridges.isEmpty then
    "UseBridges 1\n" :: config.bridges.map (fun bridge => "Bridge " ++ bridge ++ "\n")
  else []

/-- The conditional `ExitNodes` line of `generate_torrc`
(security.rs lines 525-527), as a chunk list. -/
def exitChunk (config : TorConfig) : List String :=
  match config.exit_nodes with
  | some exit_nodes => ["ExitNodes " ++ String.intercalate "," exit_nodes ++ "\n"]
  | none => []

/-- The conditional `ExcludeExitNodes` line of `generate_torrc`
(security.rs lines 529-531), as a chunk list. -/
def excludeChunk (config : TorConfig) : List String :=
  match config.exclude_exit_nodes with
  | some exclude => ["ExcludeExitNodes " ++ String.intercalate "," exclude ++ "\n"]
  | none => []

/-- The conditional `StrictNodes` line of `generate_torrc`
(security.rs lines 533-535), as a chunk list. -/
def strictChunk (config : TorConfig) : List String :=
  if config.strict_nodes then ["StrictNodes 1\n"] else []

/-- The output of `generate_torrc` broken into the chunks the source pushes
one by one: header, the five conditional blocks, and the final
`NewCircuitPeriod` line. -/
def torrcChunks (self : SecurityManager) (vm_name : String) : List String :=
  torrcHeader self.tor_config vm_name ::
    (transChunk self.tor_config ++ bridgeChunks self.tor_config ++
      exitChunk self.tor_config ++ excludeChunk self.tor_config ++
      strictChunk self.tor_config ++
      ["NewCircuitPeriod " ++ toString self.tor_config.new_circuit_period ++ "\n"])

/-- The qualifier part of the per-rule command: everything `ruleCmd`
builds before the port clauses (chain append, direction, interface, and
the optional protocol / source / destination clauses). -/
def ruleCmdQual (name vm_interface : String) (rule : FirewallRule) : String :=
  let direction :=
    match rule.direction with
    | TrafficDirection.Inbound => "-i"
    | TrafficDirection.Outbound => "-o"
    | TrafficDirection.Both => "-i"
  let cmd := "iptables -A n01d-" ++ name ++ " " ++ direction ++ " " ++ vm_interface
  let cmd := match rule.protocol with
    | some proto => cmd ++ (" -p " ++ proto)
    | none => cmd
  let cmd := match rule.source with
    | some src => cmd ++ (" -s " ++ src)
    | none => cmd
  match rule.destination with
  | some dst => cmd ++ (" -d " ++ dst)
  | none => cmd

/-- Everything `ruleCmd` builds before the final action-and-comment
suffix: the qualifiers plus the optional port and port-range clauses. -/
def ruleCmdBase (name vm_interface : String) (rule : FirewallRule) : String :=
  let cmd := ruleCmdQual name vm_interface rule
  let cmd := match rule.port with
    | some port => cmd ++ (" --dport " ++ toString port)
    | none => cmd
  match rule.port_range with
  | some se => cmd ++ (" --dport " ++ toString se.1 ++ ":" ++ toString se.2)
  | none => cmd

end SecurityManager

/-- A concrete manager (the tests construct one via
`SecurityManager::new(PathBuf::from("/tmp"))` with no persisted profiles,
security.rs line 669). -/
def mgr0 : SecurityManager where
  config_dir := "/tmp"
  profiles := []
  tor_config := TorConfig.default

/-- Concrete Tor-only profile used to instantiate hypothesised theorems. -/
def torOnlyProfile : SecurityProfile :=
  { SecurityManager.create_profile_value "tor-vm" with
    network_isolation := { NetworkIsolation.default with mode := IsolationMode.TorOnly } }

/-- Concrete host-only profile with a MAC address, used to instantiate
hypothesised theorems. -/
def hostOnlyMacProfile : SecurityProfile :=
  { SecurityManager.create_profile_value "host-vm" with
    network_isolation :=
      { NetworkIsolation.default with
        mode := IsolationMode.HostOnly
        mac_address := some "52:54:00:00:00:01" } }

/-- Concrete fully-isolated profile that still sets a MAC address, used to
instantiate hypothesised theorems. -/
def fullMacProfile : SecurityProfile :=
  { SecurityManager.create_profile_value "full-vm" with
    network_isolation :=
      { NetworkIsolation.default with
        mode := IsolationMode.Full
        mac_address := some "52:54:00:00:00:09" } }

/-- A `Both`-direction deny-all rule (the `isolated` preset's only rule). -/
def blockAllRule : FirewallRule where
  action := FirewallAction.Deny
  direction := TrafficDirection.Both
  protocol := none
  source := none
  destination := none
  port := none
  port_range := none
  description := "Block all traffic"

/-- Concrete profile whose only firewall rule is the `Both`-direction
deny-all rule. -/
def blockAllProfile : SecurityProfile :=
  { SecurityManager.create_profile_value "test" with firewall_rules := [blockAllRule] }

/-- A rule that sets both `port` and `port_range` (the undefined-precedence
case of claim C10), with direction `Both` so that the expansion-twin case
is exercised too. -/
def portAndRangeRule : FirewallRule where
  action := FirewallAction.Allow
  direction := TrafficDirection.Both
  protocol := some "tcp"
  source := none
  destination := none
  port := some 8080
  port_range := some (1000, 2000)
  description := "both port fields"

/-- Concrete profile whose only firewall rule sets both `port` and
`port_range`. -/
def portAndRangeProfile : SecurityProfile :=
  { SecurityManager.create_profile_value "test" with firewall_rules := [portAndRangeRule] }

namespace SecurityManager

/-- A token that does not start with `"virtio-net-pci"` survives the
MAC-patching loop unchanged. -/
theorem mem_patchMac_of_not_pre (mac t : String) (l : List String)
    (ht : t ∈ l) (hnp : (startsWith t "virtio-net-pci") = false) : t ∈ patchMac mac l := by
  induction l with
  | nil => cases ht
  | cons a rest ih =>
      rcases List.mem_cons.mp ht with h | h
      · subst h
        rw [patchMac, if_neg (by simp [hnp])]
        exact List.mem_cons_self ..
      · rw [patchMac]
        by_cases hp : (startsWith a "virtio-net-pci") = true
        · rw [if_pos hp]; exact List.mem_cons_of_mem _ h
        · rw [if_neg hp]; exact List.mem_cons_of_mem _ (ih h)

/-- When no token starts with `"virtio-net-pci"`, the MAC-patching loop is
the identity. -/
theorem patchMac_of_no_match (mac : String) (l : List String)
    (h : ∀ t ∈ l, (startsWith t "virtio-net-pci") = false) : patchMac mac l = l := by
  induction l with
  | nil => rfl
  | cons a rest ih =>
      rw [patchMac, if_neg (by simp [h a (List.mem_cons_self ..)]),
        ih (fun t ht => h t (List.mem_cons_of_mem _ ht))]

end SecurityManager

theorem foldl_append_shift (l : List String) (s t : String) :
    l.foldl (fun r u => r ++ u) (s ++ t) = s ++ l.foldl (fun r u => r ++ u) t := by
  induction l generalizing t with
  | nil => simp
  | cons a l ih => simp only [List.foldl_cons, String.append_assoc, ih]

theorem join_cons (a : String) (l : List String) :
    String.join (a :: l) = a ++ String.join l := by
  show List.foldl _ "" (a :: l) = a ++ List.foldl _ "" l
  rw [List.foldl_cons]
  have h := foldl_append_shift l a ""
  simp only [String.append_empty] at h
  simpa using h

theorem join_append (l₁ l₂ : List String) :
    String.join (l₁ ++ l₂) = String.join l₁ ++ String.join l₂ := by
  induction l₁ with
  | nil => simp [String.join]
  | cons a t ih => simp [join_cons, ih, String.append_assoc]

theorem foldl_append_join (g : String → String) (l : List String) (s : String) :
    l.foldl (fun acc b => acc ++ g b) s = s ++ String.join (l.map g) := by
  induction l generalizing s with
  | nil => simp [String.join]
  | cons a t ih => simp [join_cons, ih, String.append_assoc]

theorem endsWithMac_iff (mac t : String) :
    endsWithMac mac t = true ↔ ("mac=" ++ mac).data <:+ t.data := by
  simp [endsWithMac, List.isSuffixOf_iff_suffix]

/-- If `"mac="` does not occur in `t`, no string of the form `mac=<mac>` is
a suffix of `t`. -/
theorem not_mac_suffix (mac t : String)
    (h : ¬ (("mac=" : String).data <:+: t.data)) :
    ¬ (("mac=" ++ mac).data <:+ t.data) := by
  intro hs
  apply h
  have hd : ("mac=" ++ mac).data = ("mac=" : String).data ++ mac.data := by simp
  rw [hd] at hs
  exact ((List.prefix_append _ _).isInfix).trans hs.isInfix

theorem not_endsWithMac (mac t : String)
    (h : ¬ (("mac=" : String).data <:+: t.data)) : ¬ (endsWithMac mac t = true) := by
  rw [endsWithMac_iff]
  exact not_mac_suffix mac t h

/-- Appending `,mac=<mac>` to a token makes `mac=<mac>` a suffix of it. -/
theorem mac_suffix (a mac : String) :
    ("mac=" ++ mac).data <:+ (a ++ ",mac=" ++ mac).data := by
  refine ⟨a.data ++ [','], ?_⟩
  have h1 : ((",mac=" : String)).data = ',' :: ("mac=" : String).data := rfl
  simp [h1]

/-- Two strings whose first characters differ are different. -/
theorem string_ne_of_head (s t : String) (h : s.data.head? ≠ t.data.head?) : s ≠ t :=
  fun e => h (by rw [e])

/-- The first character of `s ++ t` is the first character of a nonempty
`s`. -/
theorem data_head_append (s t : String) (c : Char) (l : List Char)
    (h : s.data = c :: l) : (s ++ t).data.head? = some c := by
  simp [h]

/-- Two strings whose third characters differ are different. -/
theorem string_ne_of_get2 (s t : String) (h : s.data[2]? ≠ t.data[2]?) : s ≠ t :=
  fun e => h (by rw [e])

/-- Indexing below the length of `s` ignores an appended tail. -/
theorem data_get2_append (s t : String) (c : Char) (h : s.data[2]? = some c)
    (hl : 2 < s.data.length) : (s ++ t).data[2]? = some c := by
  rw [String.data_append, List.getElem?_append_left hl]
  exact h

open SecurityManager

/-- C2: for a profile with `network_isolation.mode = TorOnly` and
`allow_host_access = false`, compiled while the anonymity SOCKS port is
9050, the output of `generate_qemu_security_args` includes the network
device token whose guest-forward clause routes to `127.0.0.1` port `9050`
(the clause `guestfwd=tcp:10.0.2.100:9050-cmd:nc 127.0.0.1 9050` is an
infix of that token). -/
theorem C2_toronly_guestfwd (m : SecurityManager) (profile : SecurityProfile)
    (hmode : profile.network_isolation.mode = IsolationMode.TorOnly)
    (hhost : profile.network_isolation.allow_host_access = false)
    (hport : m.tor_config.socks_port = 9050) :
    ("user,id=tornet,hostfwd=tcp::2222-:22,guestfwd=tcp:10.0.2.100:9050-cmd:nc 127.0.0.1 9050"
        ∈ generate_qemu_security_args m profile) ∧
    (("guestfwd=tcp:10.0.2.100:9050-cmd:nc 127.0.0.1 9050" : String).data <:+:
      ("user,id=tornet,hostfwd=tcp::2222-:22,guestfwd=tcp:10.0.2.100:9050-cmd:nc 127.0.0.1 9050" : String).data) := by
  constructor
  · have htok :
        "user,id=tornet,hostfwd=tcp::2222-:22,guestfwd=tcp:10.0.2.100:9050-cmd:nc 127.0.0.1 "
          ++ toString m.tor_config.socks_port =
        "user,id=tornet,hostfwd=tcp::2222-:22,guestfwd=tcp:10.0.2.100:9050-cmd:nc 127.0.0.1 9050" := by
      rw [hport]; rfl
    have hmem :
        "user,id=tornet,hostfwd=tcp::2222-:22,guestfwd=tcp:10.0.2.100:9050-cmd:nc 127.0.0.1 9050"
          ∈ (if profile.sandbox_enabled then ["-sandbox", "on"] else []) ++
            ["-netdev",
             "user,id=tornet,hostfwd=tcp::2222-:22,guestfwd=tcp:10.0.2.100:9050-cmd:nc 127.0.0.1 "
               ++ toString m.tor_config.socks_port,
             "-device", "virtio-net-pci,netdev=tornet"] := by
      rw [htok]
      exact List.mem_append_right _ (by simp)
    simp only [generate_qemu_security_args, hmode]
    cases hmac : profile.network_isolation.mac_address
    · exact hmem
    · exact mem_patchMac_of_not_pre _ _ _ hmem (by decide)
  · exact ⟨("user,id=tornet,hostfwd=tcp::2222-:22," : String).data, [], by decide⟩

/-- Witness for C2 at a concrete input: `torOnlyProfile` compiled by `mgr0`
(whose SOCKS port is the default 9050). -/
theorem C2_toronly_guestfwd_witness :
    (torOnlyProfile.network_isolation.mode = IsolationMode.TorOnly ∧
     torOnlyProfile.network_isolation.allow_host_access = false ∧
     mgr0.tor_config.socks_port = 9050) ∧
    (("user,id=tornet,hostfwd=tcp::2222-:22,guestfwd=tcp:10.0.2.100:9050-cmd:nc 127.0.0.1 9050"
        ∈ generate_qemu_security_args mgr0 torOnlyProfile) ∧
     (("guestfwd=tcp:10.0.2.100:9050-cmd:nc 127.0.0.1 9050" : String).data <:+:
       ("user,id=tornet,hostfwd=tcp::2222-:22,guestfwd=tcp:10.0.2.100:9050-cmd:nc 127.0.0.1 9050" : String).data)) :=
  ⟨⟨rfl, rfl, rfl⟩, C2_toronly_guestfwd mgr0 torOnlyProfile rfl rfl rfl⟩

/-- C4: for every profile with a MAC address set and
`network_isolation.mode = HostOnly`, exactly one token emitted by
`generate_qemu_security_args` ends with `mac=<address>`, and that token is
the (patched) network-device token `virtio-net-pci,netdev=hostonly,mac=<address>`. -/
theorem C4_hostonly_unique_mac_token (m : SecurityManager) (profile : SecurityProfile)
    (mac : String)
    (hmode : profile.network_isolation.mode = IsolationMode.HostOnly)
    (hmac : profile.network_isolation.mac_address = some mac) :
    (generate_qemu_security_args m profile).countP (endsWithMac mac) = 1 ∧
    ∀ t ∈ generate_qemu_security_args m profile, endsWithMac mac t = true →
      t = "virtio-net-pci,netdev=hostonly" ++ ",mac=" ++ mac := by
  have hargs : generate_qemu_security_args m profile =
      (if profile.sandbox_enabled then ["-sandbox", "on"] else []) ++
        ["-netdev", "user,id=hostonly,restrict=on", "-device",
         "virtio-net-pci,netdev=hostonly" ++ ",mac=" ++ mac] := by
    simp only [generate_qemu_security_args, hmode, hmac]
    cases hs : profile.sandbox_enabled
    · simp only [Bool.false_eq_true, if_false, List.nil_append]
      rw [patchMac, if_neg (by decide), patchMac, if_neg (by decide), patchMac,
        if_neg (by decide), patchMac, if_pos (by decide)]
    · simp only [if_true, List.cons_append, List.nil_append]
      rw [patchMac, if_neg (by decide), patchMac, if_neg (by decide), patchMac,
        if_neg (by decide), patchMac, if_neg (by decide), patchMac, if_neg (by decide),
        patchMac, if_pos (by decide)]
  rw [hargs]
  constructor
  · cases profile.sandbox_enabled
    · simp only [Bool.false_eq_true, if_false, List.nil_append]
      rw [List.countP_cons_of_neg _ _ (not_endsWithMac mac "-netdev" (by decide)),
        List.countP_cons_of_neg _ _ (not_endsWithMac mac "user,id=hostonly,restrict=on" (by decide)),
        List.countP_cons_of_neg _ _ (not_endsWithMac mac "-device" (by decide)),
        List.countP_cons_of_pos _ _
          (by exact (endsWithMac_iff mac _).mpr (mac_suffix "virtio-net-pci,netdev=hostonly" mac)),
        List.countP_nil]
    · simp only [if_true, List.cons_append, List.nil_append]
      rw [List.countP_cons_of_neg _ _ (not_endsWithMac mac "-sandbox" (by decide)),
        List.countP_cons_of_neg _ _ (not_endsWithMac mac "on" (by decide)),
        List.countP_cons_of_neg _ _ (not_endsWithMac mac "-netdev" (by decide)),
        List.countP_cons_of_neg _ _ (not_endsWithMac mac "user,id=hostonly,restrict=on" (by decide)),
        List.countP_cons_of_neg _ _ (not_endsWithMac mac "-device" (by decide)),
        List.countP_cons_of_pos _ _
          (by exact (endsWithMac_iff mac _).mpr (mac_suffix "virtio-net-pci,netdev=hostonly" mac)),
        List.countP_nil]
  · intro t ht hsuf
    rcases List.mem_append.mp ht with hpre | hmain
    · exfalso
      cases hs : profile.sandbox_enabled
      · rw [hs] at hpre; simp at hpre
      · rw [hs] at hpre
        simp only [if_true, List.mem_cons, List.not_mem_nil, or_false] at hpre
        rcases hpre with rfl | rfl
        · exact not_endsWithMac mac "-sandbox" (by decide) hsuf
        · exact not_endsWithMac mac "on" (by decide) hsuf
    · simp only [List.mem_cons, List.not_mem_nil, or_false] at hmain
      rcases hmain with rfl | rfl | rfl | rfl
      · exact absurd hsuf (not_endsWithMac mac "-netdev" (by decide))
      · exact absurd hsuf (not_endsWithMac mac "user,id=hostonly,restrict=on" (by decide))
      · exact absurd hsuf (not_endsWithMac mac "-device" (by decide))
      · rfl

/-- Witness for C4 at a concrete input: `hostOnlyMacProfile` with MAC
`52:54:00:00:00:01`. -/
theorem C4_hostonly_unique_mac_token_witness :
    (hostOnlyMacProfile.network_isolation.mode = IsolationMode.HostOnly ∧
     hostOnlyMacProfile.network_isolation.mac_address = some "52:54:00:00:00:01") ∧
    ((generate_qemu_security_args mgr0 hostOnlyMacProfile).countP
        (endsWithMac "52:54:00:00:00:01") = 1 ∧
     ∀ t ∈ generate_qemu_security_args mgr0 hostOnlyMacProfile,
       endsWithMac "52:54:00:00:00:01" t = true →
         t = "virtio-net-pci,netdev=hostonly" ++ ",mac=" ++ "52:54:00:00:00:01") :=
  ⟨⟨rfl, rfl⟩, C4_hostonly_unique_mac_token mgr0 hostOnlyMacProfile "52:54:00:00:00:01" rfl rfl⟩

/-- C5: for every profile with `network_isolation.mode = Full` (a MAC
address may or may not be set), the output of
`generate_qemu_security_args` contains the adjacent token pair
`-nic none`, and contains no token starting with `virtio-net-pci`, i.e.
no token eligible for MAC patching. -/
theorem C5_full_isolation_no_device_token (m : SecurityManager) (profile : SecurityProfile)
    (hmode : profile.network_isolation.mode = IsolationMode.Full) :
    (["-nic", "none"] <:+: generate_qemu_security_args m profile) ∧
    ∀ t ∈ generate_qemu_security_args m profile, (startsWith t "virtio-net-pci") = false := by
  have hargs : generate_qemu_security_args m profile =
      (if profile.sandbox_enabled then ["-sandbox", "on"] else []) ++ ["-nic", "none"] := by
    simp only [generate_qemu_security_args, hmode]
    cases hmac : profile.network_isolation.mac_address
    · rfl
    · apply patchMac_of_no_match
      intro t ht
      cases hs : profile.sandbox_enabled
      · rw [hs] at ht
        simp only [Bool.false_eq_true, if_false, List.nil_append, List.mem_cons,
          List.not_mem_nil, or_false] at ht
        rcases ht with rfl | rfl <;> decide
      · rw [hs] at ht
        simp only [if_true, List.cons_append, List.nil_append, List.mem_cons,
          List.not_mem_nil, or_false] at ht
        rcases ht with rfl | rfl | rfl | rfl <;> decide
  rw [hargs]
  refine ⟨(List.suffix_append _ _).isInfix, ?_⟩
  intro t ht
  rcases List.mem_append.mp ht with hpre | hmain
  · cases hs : profile.sandbox_enabled
    · rw [hs] at hpre; simp at hpre
    · rw [hs] at hpre
      simp only [if_true, List.mem_cons, List.not_mem_nil, or_false] at hpre
      rcases hpre with rfl | rfl <;> decide
  · simp only [List.mem_cons, List.not_mem_nil, or_false] at hmain
    rcases hmain with rfl | rfl <;> decide

/-- Witness for C5 at a concrete input: `fullMacProfile`, which even sets a
MAC address. -/
theorem C5_full_isolation_no_device_token_witness :
    (fullMacProfile.network_isolation.mode = IsolationMode.Full ∧
     fullMacProfile.network_isolation.mac_address = some "52:54:00:00:00:09") ∧
    ((["-nic", "none"] <:+: generate_qemu_security_args mgr0 fullMacProfile) ∧
     ∀ t ∈ generate_qemu_security_args mgr0 fullMacProfile,
       (startsWith t "virtio-net-pci") = false) :=
  ⟨⟨rfl, rfl⟩, C5_full_isolation_no_device_token mgr0 fullMacProfile rfl⟩

/-- C8: every compiler is deterministic — its output depends only on the
profile / interface / VM name / VPN config and the manager's Tor
configuration, so two invocations on the same inputs (even by two manager
values that differ in config directory or stored profiles) produce
identical output. -/
theorem C8_compilers_deterministic (m₁ m₂ : SecurityManager)
    (h : m₁.tor_config = m₂.tor_config) (profile : SecurityProfile)
    (vm_interface vm_name : String) (vpn : VpnConfig) :
    generate_qemu_security_args m₁ profile = generate_qemu_security_args m₂ profile ∧
    generate_iptables_rules m₁ profile vm_interface
      = generate_iptables_rules m₂ profile vm_interface ∧
    generate_torrc m₁ vm_name = generate_torrc m₂ vm_name ∧
    generate_wireguard_config vpn = generate_wireguard_config vpn := by
  refine ⟨?_, rfl, ?_, rfl⟩
  · simp only [generate_qemu_security_args, h]
  · simp only [generate_torrc, h]

/-- Witness for C8 at concrete inputs: two managers sharing the default Tor
configuration but with different config directories and catalogs. -/
theorem C8_compilers_deterministic_witness :
    (SecurityManager.mk "/tmp" [] TorConfig.default).tor_config =
      (SecurityManager.mk "/etc" [("p", torOnlyProfile)] TorConfig.default).tor_config ∧
    generate_qemu_security_args (SecurityManager.mk "/tmp" [] TorConfig.default) torOnlyProfile
      = generate_qemu_security_args
          (SecurityManager.mk "/etc" [("p", torOnlyProfile)] TorConfig.default) torOnlyProfile :=
  ⟨rfl,
    (C8_compilers_deterministic (SecurityManager.mk "/tmp" [] TorConfig.default)
      (SecurityManager.mk "/etc" [("p", torOnlyProfile)] TorConfig.default) rfl
      torOnlyProfile "tap0" "vm" ⟨VpnProvider.WireGuard, none, none, 51820,
        VpnProtocol.UDP, none, true, true⟩).1⟩

/-- C9: when the persisted profile-catalog file is missing, unreadable, or
unparsable, `SecurityManager::new` initializes with an empty profile
catalog (and returns a manager rather than failing). -/
theorem C9_new_tolerates_bad_catalog (config_dir : String) (fileExists : Bool)
    (readResult : Option String)
    (parse : String → Option (List (String × SecurityProfile))) :
    (fileExists = false →
      (SecurityManager.new config_dir fileExists readResult parse).profiles = []) ∧
    (∀ content, readResult = some content → parse content = none →
      (SecurityManager.new config_dir fileExists readResult parse).profiles = []) ∧
    (readResult = none → parse "" = none →
      (SecurityManager.new config_dir fileExists readResult parse).profiles = []) := by
  refine ⟨fun hf => ?_, fun content hr hp => ?_, fun hr hp => ?_⟩ <;>
    simp [SecurityManager.new, *]

/-- Witness for C9 at concrete inputs: a present but unparsable catalog
file. -/
theorem C9_new_tolerates_bad_catalog_witness :
    ((some "not json" : Option String) = some "not json" ∧
     (fun _ : String => (none : Option (List (String × SecurityProfile)))) "not json" = none) ∧
    (SecurityManager.new "/tmp" true (some "not json") (fun _ => none)).profiles = [] :=
  ⟨⟨rfl, rfl⟩,
    (C9_new_tolerates_bad_catalog "/tmp" true (some "not json") (fun _ => none)).2.1
      "not json" rfl rfl⟩

theorem ruleCmd_eq_base (name vm_interface : String) (rule : FirewallRule) :
    ruleCmd name vm_interface rule =
      ruleCmdBase name vm_interface rule ++
        (" -j " ++ actionStr rule.action ++ " -m comment --comment \""
          ++ rule.description ++ "\"") := rfl

theorem ruleCmdBase_with_ports (name vm_interface : String) (rule : FirewallRule)
    (pt a b : Nat) (hp : rule.port = some pt) (hpr : rule.port_range = some (a, b)) :
    ruleCmdBase name vm_interface rule =
      ruleCmdQual name vm_interface rule ++ (" --dport " ++ toString pt)
        ++ (" --dport " ++ toString a ++ ":" ++ toString b) := by
  simp only [ruleCmdBase, hp, hpr]

set_option maxRecDepth 16384 in
/-- C1 fails as stated: at the concrete `Both`-direction deny-all rule of
`blockAllProfile`, the firewall compiler emits exactly two rule commands,
but it is not the case that both contain the rule's description text — the
outbound twin carries no comment at all. -/
theorem C1_counterexample :
    (List.drop 2 (generate_iptables_rules mgr0 blockAllProfile "tap0")).length = 2 ∧
    ¬ (∀ cmd ∈ List.drop 2 (generate_iptables_rules mgr0 blockAllProfile "tap0"),
        ("Block all traffic" : String).data <:+: cmd.data) := by
  constructor
  · rfl
  · decide

/-- C1 (amended): for every `FirewallRule` with `direction = Both`,
`generate_iptables_rules` emits exactly two adjacent rule commands for
that rule, the inbound command first and the outbound twin second,
preserving declaration order across the rule set; the inbound command ends
with the rule's description comment, while the outbound twin consists only
of the chain append, the out-interface qualifier, the optional protocol
clause and the action — it contains no description comment. -/
theorem C1_amended_both_expansion (m : SecurityManager) (profile : SecurityProfile)
    (vm_interface : String) (r : FirewallRule) (pre post : List FirewallRule)
    (hr : profile.firewall_rules = pre ++ r :: post)
    (hd : r.direction = TrafficDirection.Both) :
    generate_iptables_rules m profile vm_interface =
      ("iptables -F n01d-" ++ profile.name) ::
      ("iptables -N n01d-" ++ profile.name ++ " 2>/dev/null || true") ::
      (pre.flatMap (ruleCmds profile.name vm_interface) ++
        ruleCmd profile.name vm_interface r ::
        ruleCmdOut profile.name vm_interface r ::
        post.flatMap (ruleCmds profile.name vm_interface)) ∧
    (∃ x, ruleCmd profile.name vm_interface r =
      x ++ " -j " ++ actionStr r.action ++ " -m comment --comment \""
        ++ r.description ++ "\"") ∧
    ruleCmdOut profile.name vm_interface r =
      "iptables -A n01d-" ++ profile.name ++ " -o " ++ vm_interface ++
        (match r.protocol with | some proto => " -p " ++ proto | none => "") ++
        " -j " ++ actionStr r.action := by
  refine ⟨?_, ?_, ?_⟩
  · simp only [generate_iptables_rules, hr, List.flatMap_append, List.flatMap_cons]
    simp [ruleCmds, hd]
  · exact ⟨ruleCmdBase profile.name vm_interface r,
      by rw [ruleCmd_eq_base]; simp [String.append_assoc]⟩
  · cases hproto : r.protocol <;>
      simp [ruleCmdOut, hproto, String.append_assoc, String.append_empty]

/-- Witness for the amended C1 at a concrete input: `blockAllProfile`,
whose single rule has direction `Both`. -/
theorem C1_amended_both_expansion_witness :
    (blockAllProfile.firewall_rules = [] ++ blockAllRule :: [] ∧
     blockAllRule.direction = TrafficDirection.Both) ∧
    (generate_iptables_rules mgr0 blockAllProfile "tap0" =
      ("iptables -F n01d-" ++ blockAllProfile.name) ::
      ("iptables -N n01d-" ++ blockAllProfile.name ++ " 2>/dev/null || true") ::
      (([] : List FirewallRule).flatMap (ruleCmds blockAllProfile.name "tap0") ++
        ruleCmd blockAllProfile.name "tap0" blockAllRule ::
        ruleCmdOut blockAllProfile.name "tap0" blockAllRule ::
        ([] : List FirewallRule).flatMap (ruleCmds blockAllProfile.name "tap0")) ∧
     (∃ x, ruleCmd blockAllProfile.name "tap0" blockAllRule =
       x ++ " -j " ++ actionStr blockAllRule.action ++ " -m comment --comment \""
         ++ blockAllRule.description ++ "\"") ∧
     ruleCmdOut blockAllProfile.name "tap0" blockAllRule =
       "iptables -A n01d-" ++ blockAllProfile.name ++ " -o " ++ "tap0" ++
         (match blockAllRule.protocol with
          | some proto => " -p " ++ proto
          | none => "") ++
         " -j " ++ actionStr blockAllRule.action) :=
  ⟨⟨rfl, rfl⟩,
    C1_amended_both_expansion mgr0 blockAllProfile "tap0" blockAllRule [] [] rfl rfl⟩

/-- C3: the default firewall set compiled for the (freshly created) profile
named `test` against interface `tap0` is exactly the chain-flush command
for `n01d-test`, the chain-create command for `n01d-test`, and three rule
commands for ports 443, 80 and 53, in that order. -/
theorem C3_default_rules_for_test_profile :
    generate_iptables_rules mgr0 (create_profile_value "test") "tap0" =
      [ "iptables -F n01d-test",
        "iptables -N n01d-test 2>/dev/null || true",
        "iptables -A n01d-test -o tap0 -p tcp --dport 443 -j ACCEPT -m comment --comment \"Allow HTTPS\"",
        "iptables -A n01d-test -o tap0 -p tcp --dport 80 -j ACCEPT -m comment --comment \"Allow HTTP\"",
        "iptables -A n01d-test -o tap0 -p udp --dport 53 -j ACCEPT -m comment --comment \"Allow DNS\"" ] :=
  rfl

set_option maxRecDepth 16384 in
/-- C6: the preset catalog contains a `paranoid` entry (Tor-only isolation,
host access denied, internet allowed, a deny-outbound-ICMP rule placed
before an allow-outbound-TCP-to-9050 rule) and an `isolated` entry (Full
isolation, internet denied, exactly one rule denying all bidirectional
traffic, and no virtual devices). -/
theorem C6_preset_catalog_contents :
    (∃ entry ∈ SecurityManager.get_preset_profiles,
      entry.1 = "paranoid" ∧
      entry.2.2.network_isolation.mode = IsolationMode.TorOnly ∧
      entry.2.2.network_isolation.allow_host_access = false ∧
      entry.2.2.network_isolation.allow_internet = true ∧
      ∃ i j : Fin entry.2.2.firewall_rules.length, (i : Nat) < (j : Nat) ∧
        ((entry.2.2.firewall_rules.get i).action = FirewallAction.Deny ∧
         (entry.2.2.firewall_rules.get i).direction = TrafficDirection.Outbound ∧
         (entry.2.2.firewall_rules.get i).protocol = some "icmp") ∧
        ((entry.2.2.firewall_rules.get j).action = FirewallAction.Allow ∧
         (entry.2.2.firewall_rules.get j).direction = TrafficDirection.Outbound ∧
         (entry.2.2.firewall_rules.get j).protocol = some "tcp" ∧
         (entry.2.2.firewall_rules.get j).destination = some "127.0.0.1" ∧
         (entry.2.2.firewall_rules.get j).port = some 9050)) ∧
    (∃ entry ∈ SecurityManager.get_preset_profiles,
      entry.1 = "isolated" ∧
      entry.2.2.network_isolation.mode = IsolationMode.Full ∧
      entry.2.2.network_isolation.allow_internet = false ∧
      entry.2.2.firewall_rules.length = 1 ∧
      (∀ r ∈ entry.2.2.firewall_rules, r.action = FirewallAction.Deny ∧
        r.direction = TrafficDirection.Both ∧ r.protocol = none ∧ r.source = none ∧
        r.destination = none ∧ r.port = none ∧ r.port_range = none) ∧
      entry.2.2.virtual_devices = []) :=
  ⟨by decide, by decide⟩

/-- C10: for every rule with both `port` and `port_range` set, whatever its
direction, the compiler does not reject the rule — it emits the single
primary-direction command `ruleCmd` for it (plus, only when the direction
is `Both`, the port-free outbound twin), the primary command carries the
single-port clause immediately followed by the port-range clause (then
action and comment), and the twin, when present, is exactly the chain
append, out-interface qualifier, optional protocol clause and action, with
no port clause. -/
theorem C10_port_and_range_combined (m : SecurityManager) (profile : SecurityProfile)
    (vm_interface : String) (r : FirewallRule) (pre post : List FirewallRule)
    (pt a b : Nat)
    (hr : profile.firewall_rules = pre ++ r :: post)
    (hp : r.port = some pt) (hpr : r.port_range = some (a, b)) :
    generate_iptables_rules m profile vm_interface =
      ("iptables -F n01d-" ++ profile.name) ::
      ("iptables -N n01d-" ++ profile.name ++ " 2>/dev/null || true") ::
      (pre.flatMap (ruleCmds profile.name vm_interface) ++
        (ruleCmd profile.name vm_interface r ::
          (if r.direction = TrafficDirection.Both
            then [ruleCmdOut profile.name vm_interface r] else [])) ++
        post.flatMap (ruleCmds profile.name vm_interface)) ∧
    (∃ x, ruleCmd profile.name vm_interface r =
      x ++ " --dport " ++ toString pt ++ " --dport " ++ toString a ++ ":" ++ toString b
        ++ " -j " ++ actionStr r.action ++ " -m comment --comment \""
        ++ r.description ++ "\"") ∧
    ruleCmdOut profile.name vm_interface r =
      "iptables -A n01d-" ++ profile.name ++ " -o " ++ vm_interface ++
        (match r.protocol with | some proto => " -p " ++ proto | none => "") ++
        " -j " ++ actionStr r.action := by
  refine ⟨?_, ?_, ?_⟩
  · simp only [generate_iptables_rules, hr, List.flatMap_append, List.flatMap_cons]
    simp [ruleCmds]
  · exact ⟨ruleCmdQual profile.name vm_interface r,
      by rw [ruleCmd_eq_base, ruleCmdBase_with_ports _ _ _ pt a b hp hpr]
         simp [String.append_assoc]⟩
  · cases hproto : r.protocol <;>
      simp [ruleCmdOut, hproto, String.append_assoc, String.append_empty]

/-- Witness for C10 at a concrete input: `portAndRangeProfile`, whose only
rule has direction `Both` and sets `port = 8080` and
`port_range = (1000, 2000)`. -/
theorem C10_port_and_range_combined_witness :
    (portAndRangeProfile.firewall_rules = [] ++ portAndRangeRule :: [] ∧
     portAndRangeRule.port = some 8080 ∧
     portAndRangeRule.port_range = some (1000, 2000)) ∧
    (generate_iptables_rules mgr0 portAndRangeProfile "tap0" =
      ("iptables -F n01d-" ++ portAndRangeProfile.name) ::
      ("iptables -N n01d-" ++ portAndRangeProfile.name ++ " 2>/dev/null || true") ::
      (([] : List FirewallRule).flatMap (ruleCmds portAndRangeProfile.name "tap0") ++
        (ruleCmd portAndRangeProfile.name "tap0" portAndRangeRule ::
          (if portAndRangeRule.direction = TrafficDirection.Both
            then [ruleCmdOut portAndRangeProfile.name "tap0" portAndRangeRule]
            else [])) ++
        ([] : List FirewallRule).flatMap (ruleCmds portAndRangeProfile.name "tap0")) ∧
     (∃ x, ruleCmd portAndRangeProfile.name "tap0" portAndRangeRule =
       x ++ " --dport " ++ toString 8080 ++ " --dport " ++ toString 1000 ++ ":"
         ++ toString 2000 ++ " -j " ++ actionStr portAndRangeRule.action
         ++ " -m comment --comment \"" ++ portAndRangeRule.description ++ "\"") ∧
     ruleCmdOut portAndRangeProfile.name "tap0" portAndRangeRule =
       "iptables -A n01d-" ++ portAndRangeProfile.name ++ " -o " ++ "tap0" ++
         (match portAndRangeRule.protocol with
          | some proto => " -p " ++ proto
          | none => "") ++
         " -j " ++ actionStr portAndRangeRule.action) :=
  ⟨⟨rfl, rfl, rfl⟩,
    C10_port_and_range_combined mgr0 portAndRangeProfile "tap0" portAndRangeRule [] []
      8080 1000 2000 rfl rfl rfl⟩

theorem join_nil : String.join [] = "" := rfl

theorem join_singleton (a : String) : String.join [a] = a := by
  rw [join_cons, join_nil, String.append_empty]

theorem step_trans (config : TorConfig) (torrc : String) :
    (if config.transparent_proxy then torrc ++ "TransPort 9040\n" else torrc) =
      torrc ++ String.join (transChunk config) := by
  cases h : config.transparent_proxy
  · rw [if_neg (by simp [h]), transChunk, if_neg (by simp [h]), join_nil,
      String.append_empty]
  · rw [if_pos (by simp [h]), transChunk, if_pos (by simp [h]), join_singleton]

theorem step_bridge (config : TorConfig) (torrc : String) :
    (if config.bridge_enabled && !config.bridges.isEmpty then
        config.bridges.foldl (fun acc bridge => acc ++ ("Bridge " ++ bridge ++ "\n"))
          (torrc ++ "UseBridges 1\n")
      else torrc) =
      torrc ++ String.join (bridgeChunks config) := by
  cases h : config.bridge_enabled && !config.bridges.isEmpty
  · rw [if_neg (by simp [h]), bridgeChunks, if_neg (by simp [h]), join_nil,
      String.append_empty]
  · rw [if_pos (by simp [h]), bridgeChunks, if_pos (by simp [h]),
      foldl_append_join, join_cons, String.append_assoc]

theorem step_exit (config : TorConfig) (torrc : String) :
    (match config.exit_nodes with
      | some exit_nodes => torrc ++ ("ExitNodes " ++ String.intercalate "," exit_nodes ++ "\n")
      | none => torrc) =
      torrc ++ String.join (exitChunk config) := by
  cases h : config.exit_nodes
  · rw [exitChunk, h, join_nil, String.append_empty]
  · rw [exitChunk, h, join_singleton]

theorem step_exclude (config : TorConfig) (torrc : String) :
    (match config.exclude_exit_nodes with
      | some exclude => torrc ++ ("ExcludeExitNodes " ++ String.intercalate "," exclude ++ "\n")
      | none => torrc) =
      torrc ++ String.join (excludeChunk config) := by
  cases h : config.exclude_exit_nodes
  · rw [excludeChunk, h, join_nil, String.append_empty]
  · rw [excludeChunk, h, join_singleton]

theorem step_strict (config : TorConfig) (torrc : String) :
    (if config.strict_nodes then torrc ++ "StrictNodes 1\n" else torrc) =
      torrc ++ String.join (strictChunk config) := by
  cases h : config.strict_nodes
  · rw [if_neg (by simp [h]), strictChunk, if_neg (by simp [h]), join_nil,
      String.append_empty]
  · rw [if_pos (by simp [h]), strictChunk, if_pos (by simp [h]), join_singleton]

theorem generate_torrc_eq_join (self : SecurityManager) (vm_name : String) :
    generate_torrc self vm_name = String.join (torrcChunks self vm_name) := by
  simp only [generate_torrc]
  rw [step_strict, step_exclude, step_exit, step_bridge, step_trans]
  simp only [torrcChunks, join_cons, join_append, join_singleton, join_nil,
    String.append_empty, String.append_assoc]

theorem startsWithChar (s : String) (c : Char) (h : ∃ l, s.data = c :: l) (t : String) :
    ∃ l, (s ++ t).data = c :: l := by
  obtain ⟨l, hl⟩ := h
  exact ⟨l ++ t.data, by simp [hl]⟩

theorem ne_of_startsChar (s t : String) (c d : Char) (hs : ∃ l, s.data = c :: l)
    (ht : ∃ l, t.data = d :: l) (hcd : c ≠ d) : s ≠ t := by
  intro e
  subst e
  obtain ⟨l, hl⟩ := hs
  obtain ⟨l', hl'⟩ := ht
  rw [hl] at hl'
  injection hl' with h1 _
  exact hcd h1

theorem torrcHeader_starts (config : TorConfig) (v : String) :
    ∃ l, (torrcHeader config v).data = '#' :: l := by
  rw [torrcHeader]
  repeat apply startsWithChar
  exact ⟨_, rfl⟩

theorem bridge_line_starts (b : String) :
    ∃ l, ("Bridge " ++ b ++ "\n").data = 'B' :: l := by
  repeat apply startsWithChar
  exact ⟨_, rfl⟩

theorem exit_line_starts (s : String) :
    ∃ l, ("ExitNodes " ++ s ++ "\n").data = 'E' :: l := by
  repeat apply startsWithChar
  exact ⟨_, rfl⟩

theorem exclude_line_starts (s : String) :
    ∃ l, ("ExcludeExitNodes " ++ s ++ "\n").data = 'E' :: l := by
  repeat apply startsWithChar
  exact ⟨_, rfl⟩

theorem newcircuit_line_starts (n : Nat) :
    ∃ l, ("NewCircuitPeriod " ++ toString n ++ "\n").data = 'N' :: l := by
  repeat apply startsWithChar
  exact ⟨_, rfl⟩

theorem exit_line_get2 (s t : String) :
    (("ExitNodes " ++ s) ++ t).data[2]? = some 'i' := by
  apply data_get2_append
  · exact data_get2_append _ _ _ (by decide) (by decide)
  · rw [String.data_append, List.length_append]
    have h10 : ("ExitNodes " : String).data.length = 10 := by decide
    omega

theorem exclude_line_get2 (s t : String) :
    (("ExcludeExitNodes " ++ s) ++ t).data[2]? = some 'c' := by
  apply data_get2_append
  · exact data_get2_append _ _ _ (by decide) (by decide)
  · rw [String.data_append, List.length_append]
    have h17 : ("ExcludeExitNodes " : String).data.length = 17 := by decide
    omega

theorem exit_ne_exclude (s t : String) :
    ("ExitNodes " ++ s ++ "\n") ≠ ("ExcludeExitNodes " ++ t ++ "\n") := by
  apply string_ne_of_get2
  rw [exit_line_get2, exclude_line_get2]
  decide

theorem bridge_inj (b b' : String)
    (h : "Bridge " ++ b ++ "\n" = "Bridge " ++ b' ++ "\n") : b = b' := by
  have hd := congrArg String.data h
  simp only [String.data_append] at hd
  exact String.ext (List.append_cancel_left (List.append_cancel_right hd))

theorem mem_transChunk (config : TorConfig) (x : String) :
    x ∈ transChunk config ↔ (config.transparent_proxy = true ∧ x = "TransPort 9040\n") := by
  cases h : config.transparent_proxy <;> simp [transChunk, h]

theorem mem_bridgeChunks (config : TorConfig) (x : String) :
    x ∈ bridgeChunks config ↔
      ((config.bridge_enabled = true ∧ config.bridges ≠ []) ∧
        (x = "UseBridges 1\n" ∨ ∃ b ∈ config.bridges, x = "Bridge " ++ b ++ "\n")) := by
  cases h : config.bridge_enabled && !config.bridges.isEmpty
  · rw [bridgeChunks, if_neg (by simp [h])]
    simp only [List.not_mem_nil, false_iff]
    rintro ⟨⟨h1, h2⟩, -⟩
    rw [h1] at h
    simp [List.isEmpty_iff] at h
    exact h2 h
  · rw [bridgeChunks, if_pos (by simp [h])]
    rw [Bool.and_eq_true, Bool.not_eq_true'] at h
    have hb : config.bridge_enabled = true ∧ config.bridges ≠ [] := by
      refine ⟨h.1, ?_⟩
      intro e
      rw [e] at h
      exact absurd h.2 (by decide)
    constructor
    · intro hmem
      refine ⟨hb, ?_⟩
      rcases List.mem_cons.mp hmem with rfl | hm
      · exact Or.inl rfl
      · obtain ⟨b, hbm, rfl⟩ := List.mem_map.mp hm
        exact Or.inr ⟨b, hbm, rfl⟩
    · rintro ⟨-, rfl | ⟨b, hbm, rfl⟩⟩
      · exact List.mem_cons_self ..
      · exact List.mem_cons_of_mem _ (List.mem_map.mpr ⟨b, hbm, rfl⟩)

theorem mem_exitChunk (config : TorConfig) (x : String) :
    x ∈ exitChunk config ↔
      (∃ ns, config.exit_nodes = some ns ∧
        x = "ExitNodes " ++ String.intercalate "," ns ++ "\n") := by
  cases h : config.exit_nodes <;> simp [exitChunk, h]

theorem mem_excludeChunk (config : TorConfig) (x : String) :
    x ∈ excludeChunk config ↔
      (∃ ns, config.exclude_exit_nodes = some ns ∧
        x = "ExcludeExitNodes " ++ String.intercalate "," ns ++ "\n") := by
  cases h : config.exclude_exit_nodes <;> simp [excludeChunk, h]

theorem mem_strictChunk (config : TorConfig) (x : String) :
    x ∈ strictChunk config ↔ (config.strict_nodes = true ∧ x = "StrictNodes 1\n") := by
  cases h : config.strict_nodes <;> simp [strictChunk, h]

theorem mem_torrcChunks (self : SecurityManager) (v x : String) :
    x ∈ torrcChunks self v ↔
      (x = torrcHeader self.tor_config v ∨ x ∈ transChunk self.tor_config ∨
        x ∈ bridgeChunks self.tor_config ∨ x ∈ exitChunk self.tor_config ∨
        x ∈ excludeChunk self.tor_config ∨ x ∈ strictChunk self.tor_config ∨
        x = "NewCircuitPeriod " ++ toString self.tor_config.new_circuit_period ++ "\n") := by
  simp [torrcChunks, List.mem_cons, List.mem_append, or_assoc]

/-- C7: each conditional line of `generate_torrc` is emitted exactly when
its governing condition holds — the output is the concatenation of the
chunk list `torrcChunks`, and in that list the `TransPort` line appears iff
`transparent_proxy`, the `UseBridges` line iff `bridge_enabled` with a
non-empty bridge list, each `Bridge <b>` line iff additionally `b` is one
of the bridges, an `ExitNodes` (resp. `ExcludeExitNodes`) line iff the
respective optional list is present, and the `StrictNodes` line iff
`strict_nodes`. -/
theorem C7_torrc_conditional_lines (self : SecurityManager) (vm_name : String) :
    generate_torrc self vm_name = String.join (torrcChunks self vm_name) ∧
    (("TransPort 9040\n" ∈ torrcChunks self vm_name) ↔
      self.tor_config.transparent_proxy = true) ∧
    (("UseBridges 1\n" ∈ torrcChunks self vm_name) ↔
      (self.tor_config.bridge_enabled = true ∧ self.tor_config.bridges ≠ [])) ∧
    (∀ b, (("Bridge " ++ b ++ "\n") ∈ torrcChunks self vm_name) ↔
      (self.tor_config.bridge_enabled = true ∧ self.tor_config.bridges ≠ [] ∧
        b ∈ self.tor_config.bridges)) ∧
    ((∃ s, ("ExitNodes " ++ s ++ "\n") ∈ torrcChunks self vm_name) ↔
      (self.tor_config.exit_nodes).isSome = true) ∧
    ((∃ s, ("ExcludeExitNodes " ++ s ++ "\n") ∈ torrcChunks self vm_name) ↔
      (self.tor_config.exclude_exit_nodes).isSome = true) ∧
    (("StrictNodes 1\n" ∈ torrcChunks self vm_name) ↔
      self.tor_config.strict_nodes = true) := by
  refine ⟨generate_torrc_eq_join self vm_name, ?_, ?_, ?_, ?_, ?_, ?_⟩
  · rw [mem_torrcChunks]
    constructor
    · rintro (h | h | h | h | h | h | h)
      · exact absurd h (ne_of_startsChar _ _ 'T' '#' ⟨_, rfl⟩
          (torrcHeader_starts _ _) (by decide))
      · exact ((mem_transChunk _ _).mp h).1
      · rcases ((mem_bridgeChunks _ _).mp h).2 with h' | ⟨b, -, h'⟩
        · exact absurd h' (by decide)
        · exact absurd h' (ne_of_startsChar _ _ 'T' 'B' ⟨_, rfl⟩
            (bridge_line_starts b) (by decide))
      · obtain ⟨ns, -, h'⟩ := (mem_exitChunk _ _).mp h
        exact absurd h' (ne_of_startsChar _ _ 'T' 'E' ⟨_, rfl⟩
          (exit_line_starts _) (by decide))
      · obtain ⟨ns, -, h'⟩ := (mem_excludeChunk _ _).mp h
        exact absurd h' (ne_of_startsChar _ _ 'T' 'E' ⟨_, rfl⟩
          (exclude_line_starts _) (by decide))
      · exact absurd ((mem_strictChunk _ _).mp h).2 (by decide)
      · exact absurd h (ne_of_startsChar _ _ 'T' 'N' ⟨_, rfl⟩
          (newcircuit_line_starts _) (by decide))
    · intro h
      exact Or.inr (Or.inl ((mem_transChunk _ _).mpr ⟨h, rfl⟩))
  · rw [mem_torrcChunks]
    constructor
    · rintro (h | h | h | h | h | h | h)
      · exact absurd h (ne_of_startsChar _ _ 'U' '#' ⟨_, rfl⟩
          (torrcHeader_starts _ _) (by decide))
      · exact absurd ((mem_transChunk _ _).mp h).2 (by decide)
      · exact ((mem_bridgeChunks _ _).mp h).1
      · obtain ⟨ns, -, h'⟩ := (mem_exitChunk _ _).mp h
        exact absurd h' (ne_of_startsChar _ _ 'U' 'E' ⟨_, rfl⟩
          (exit_line_starts _) (by decide))
      · obtain ⟨ns, -, h'⟩ := (mem_excludeChunk _ _).mp h
        exact absurd h' (ne_of_startsChar _ _ 'U' 'E' ⟨_, rfl⟩
          (exclude_line_starts _) (by decide))
      · exact absurd ((mem_strictChunk _ _).mp h).2 (by decide)
      · exact absurd h (ne_of_startsChar _ _ 'U' 'N' ⟨_, rfl⟩
          (newcircuit_line_starts _) (by decide))
    · intro h
      exact Or.inr (Or.inr (Or.inl ((mem_bridgeChunks _ _).mpr ⟨h, Or.inl rfl⟩)))
  · intro b
    rw [mem_torrcChunks]
    constructor
    · rintro (h | h | h | h | h | h | h)
      · exact absurd h (ne_of_startsChar _ _ 'B' '#' (bridge_line_starts b)
          (torrcHeader_starts _ _) (by decide))
      · exact absurd ((mem_transChunk _ _).mp h).2 (ne_of_startsChar _ _ 'B' 'T'
          (bridge_line_starts b) ⟨_, rfl⟩ (by decide))
      · obtain ⟨⟨h1, h2⟩, h'⟩ := (mem_bridgeChunks _ _).mp h
        rcases h' with h' | ⟨b', hb', h'⟩
        · exact absurd h' (ne_of_startsChar _ _ 'B' 'U' (bridge_line_starts b)
            ⟨_, rfl⟩ (by decide))
        · exact ⟨h1, h2, bridge_inj b b' h' ▸ hb'⟩
      · obtain ⟨ns, -, h'⟩ := (mem_exitChunk _ _).mp h
        exact absurd h' (ne_of_startsChar _ _ 'B' 'E' (bridge_line_starts b)
          (exit_line_starts _) (by decide))
      · obtain ⟨ns, -, h'⟩ := (mem_excludeChunk _ _).mp h
        exact absurd h' (ne_of_startsChar _ _ 'B' 'E' (bridge_line_starts b)
          (exclude_line_starts _) (by decide))
      · exact absurd ((mem_strictChunk _ _).mp h).2 (ne_of_startsChar _ _ 'B' 'S'
          (bridge_line_starts b) ⟨_, rfl⟩ (by decide))
      · exact absurd h (ne_of_startsChar _ _ 'B' 'N' (bridge_line_starts b)
          (newcircuit_line_starts _) (by decide))
    · rintro ⟨h1, h2, h3⟩
      exact Or.inr (Or.inr (Or.inl ((mem_bridgeChunks _ _).mpr
        ⟨⟨h1, h2⟩, Or.inr ⟨b, h3, rfl⟩⟩)))
  · constructor
    · rintro ⟨s, h⟩
      rw [mem_torrcChunks] at h
      rcases h with h | h | h | h | h | h | h
      · exact absurd h (ne_of_startsChar _ _ 'E' '#' (exit_line_starts s)
          (torrcHeader_starts _ _) (by decide))
      · exact absurd ((mem_transChunk _ _).mp h).2 (ne_of_startsChar _ _ 'E' 'T'
          (exit_line_starts s) ⟨_, rfl⟩ (by decide))
      · rcases ((mem_bridgeChunks _ _).mp h).2 with h' | ⟨b, -, h'⟩
        · exact absurd h' (ne_of_startsChar _ _ 'E' 'U' (exit_line_starts s)
            ⟨_, rfl⟩ (by decide))
        · exact absurd h' (ne_of_startsChar _ _ 'E' 'B' (exit_line_starts s)
            (bridge_line_starts b) (by decide))
      · obtain ⟨ns, hns, -⟩ := (mem_exitChunk _ _).mp h
        rw [hns]
        rfl
      · obtain ⟨ns, -, h'⟩ := (mem_excludeChunk _ _).mp h
        exact absurd h' (exit_ne_exclude s _)
      · exact absurd ((mem_strictChunk _ _).mp h).2 (ne_of_startsChar _ _ 'E' 'S'
          (exit_line_starts s) ⟨_, rfl⟩ (by decide))
      · exact absurd h (ne_of_startsChar _ _ 'E' 'N' (exit_line_starts s)
          (newcircuit_line_starts _) (by decide))
    · intro h
      obtain ⟨ns, hns⟩ := Option.isSome_iff_exists.mp h
      refine ⟨String.intercalate "," ns, ?_⟩
      rw [mem_torrcChunks]
      exact Or.inr (Or.inr (Or.inr (Or.inl ((mem_exitChunk _ _).mpr ⟨ns, hns, rfl⟩))))
  · constructor
    · rintro ⟨s, h⟩
      rw [mem_torrcChunks] at h
      rcases h with h | h | h | h | h | h | h
      · exact absurd h (ne_of_startsChar _ _ 'E' '#' (exclude_line_starts s)
          (torrcHeader_starts _ _) (by decide))
      · exact absurd ((mem_transChunk _ _).mp h).2 (ne_of_startsChar _ _ 'E' 'T'
          (exclude_line_starts s) ⟨_, rfl⟩ (by decide))
      · rcases ((mem_bridgeChunks _ _).mp h).2 with h' | ⟨b, -, h'⟩
        · exact absurd h' (ne_of_startsChar _ _ 'E' 'U' (exclude_line_starts s)
            ⟨_, rfl⟩ (by decide))
        · exact absurd h' (ne_of_startsChar _ _ 'E' 'B' (exclude_line_starts s)
            (bridge_line_starts b) (by decide))
      · obtain ⟨ns, -, h'⟩ := (mem_exitChunk _ _).mp h
        exact absurd h'.symm (exit_ne_exclude _ s)
      · obtain ⟨ns, hns, -⟩ := (mem_excludeChunk _ _).mp h
        rw [hns]
        rfl
      · exact absurd ((mem_strictChunk _ _).mp h).2 (ne_of_startsChar _ _ 'E' 'S'
          (exclude_line_starts s) ⟨_, rfl⟩ (by decide))
      · exact absurd h (ne_of_startsChar _ _ 'E' 'N' (exclude_line_starts s)
          (newcircuit_line_starts _) (by decide))
    · intro h
      obtain ⟨ns, hns⟩ := Option.isSome_iff_exists.mp h
      refine ⟨String.intercalate "," ns, ?_⟩
      rw [mem_torrcChunks]
      exact Or.inr (Or.inr (Or.inr (Or.inr (Or.inl
        ((mem_excludeChunk _ _).mpr ⟨ns, hns, rfl⟩)))))
  · rw [mem_torrcChunks]
    constructor
    · rintro (h | h | h | h | h | h | h)
      · exact absurd h (ne_of_startsChar _ _ 'S' '#' ⟨_, rfl⟩
          (torrcHeader_starts _ _) (by decide))
      · exact absurd ((mem_transChunk _ _).mp h).2 (by decide)
      · rcases ((mem_bridgeChunks _ _).mp h).2 with h' | ⟨b, -, h'⟩
        · exact absurd h' (by decide)
        · exact absurd h' (ne_of_startsChar _ _ 'S' 'B' ⟨_, rfl⟩
            (bridge_line_starts b) (by decide))
      · obtain ⟨ns, -, h'⟩ := (mem_exitChunk _ _).mp h
        exact absurd h' (ne_of_startsChar _ _ 'S' 'E' ⟨_, rfl⟩
          (exit_line_starts _) (by decide))
      · obtain ⟨ns, -, h'⟩ := (mem_excludeChunk _ _).mp h
        exact absurd h' (ne_of_startsChar _ _ 'S' 'E' ⟨_, rfl⟩
          (exclude_line_starts _) (by decide))
      · exact ((mem_strictChunk _ _).mp h).1
      · exact absurd h (ne_of_startsChar _ _ 'S' 'N' ⟨_, rfl⟩
          (newcircuit_line_starts _) (by decide))
    · intro h
      exact Or.inr (Or.inr (Or.inr (Or.inr (Or.inr (Or.inl
        ((mem_strictChunk _ _).mpr ⟨h, rfl⟩))))))
